import Mathlib

/-!
Verification of the libp2p daemon control client
(`hivemind/p2p/p2p_daemon_bindings/control.py`).

The file is a shallow embedding of the client: the endpoint resolver
(`parse_conn_protocol`), the `DaemonConnector`, and the `ControlClient`'s
persistent-channel engine (read loop, outbound queue, call correlator) and
its two handler registries, together with theorems about the behaviour the
design document ascribes to them.

Modelling conventions:
- a `Multiaddr` is abstracted by the finite set of protocol codes occurring
  in it (the source only ever inspects
  `set(proto.code for proto in maddr.protocols())` and the per-protocol
  values, which play no role in the verified claims);
- Python `bytes` values are `List Nat`; UUID call identifiers are `Nat`
  (the source only compares them for equality);
- Python dicts are association lists with unique keys, accessed through
  `dget` / `dset` / `ddel` below;
- an `asyncio.Future` is a single-assignment slot `FutState`;
- `await`ing an external coroutine (a registered handler, a pending future)
  is embedded by passing the outcome of that await as an explicit argument;
- a raised exception is an `Option PyExc` paired with the state at the point
  the exception propagates out of the embedded function;
- registered callbacks are opaque and identified by a `Nat` in the
  registries (the client never calls, inspects or compares them except for
  dict lookup).
-/

namespace P2PDaemon

/-! ## Exceptions raised by the embedded code -/

/-- Exceptions that the embedded fragments of `control.py` can raise. -/
inductive PyExc
  /-- `P2PHandlerError` (control.py, bottom): remote handled a request with an exception. -/
  | p2pHandlerError (msg : String)
  /-- `ValueError` with a message. -/
  | valueError (msg : String)
  /-- `asyncio.InvalidStateError`: `set_result` / `set_exception` on a completed future. -/
  | invalidStateError
  /-- `AssertionError` from a failed `assert`. -/
  | assertionError
  /-- `ControlFailure` raised by `raise_if_failed` on a daemon error status. -/
  | controlFailure (msg : String)
  /-- The error raised by a synchronous `with` statement applied to an
  `asyncio.Lock` (`RuntimeError` on Python 3.9 and below, where
  `_ContextManagerMixin.__enter__` unconditionally raises; `TypeError` on
  Python 3.10 and above, where the lock has no `__enter__` at all). -/
  | lockNotSyncUsable
  /-- An exception escaping `read_pbmsg_safe`: the inbound frame could not be decoded. -/
  | decodeError (msg : String)
deriving DecidableEq

/-! ## Association-list model of Python dicts -/

/-- Lookup: `d[k]` / `d.get(k)` / `k in d`. -/
def dget {α β : Type} [DecidableEq α] : List (α × β) → α → Option β
  | [], _ => none
  | (k1, v1) :: rest, k => if k1 = k then some v1 else dget rest k

/-- Assignment `d[k] = v`: replace the entry if the key is present, append otherwise. -/
def dset {α β : Type} [DecidableEq α] : List (α × β) → α → β → List (α × β)
  | [], k, v => [(k, v)]
  | (k1, v1) :: rest, k, v => if k1 = k then (k, v) :: rest else (k1, v1) :: dset rest k v

/-- Removal `d.pop(k)`: drop the first entry with the key (dicts keep keys unique). -/
def ddel {α β : Type} [DecidableEq α] : List (α × β) → α → List (α × β)
  | [], _ => []
  | (k1, v1) :: rest, k => if k1 = k then rest else (k1, v1) :: ddel rest k

instance {ε α : Type} [DecidableEq ε] [DecidableEq α] : DecidableEq (Except ε α) := fun x y =>
  match x, y with
  | .ok a, .ok b =>
    if h : a = b then .isTrue (congrArg Except.ok h)
    else .isFalse (fun hc => h (Except.ok.inj hc))
  | .error a, .error b =>
    if h : a = b then .isTrue (congrArg Except.error h)
    else .isFalse (fun hc => h (Except.error.inj hc))
  | .ok _, .error _ => .isFalse (fun hc => Except.noConfusion hc)
  | .error _, .ok _ => .isFalse (fun hc => Except.noConfusion hc)

/-! ## Multiaddr protocol codes

Codes from the multiaddr protocol table used by the source:
`P_IP4 = 4`, `P_TCP = 6`, `P_UNIX = 400`. -/

def P_IP4 : Nat := 4
def P_TCP : Nat := 6
def P_UNIX : Nat := 400

/-- `SUPPORT_CONN_PROTOCOLS = (protocols.P_IP4, protocols.P_UNIX)` — `P_IP6`
is commented out in the source. The Python tuple is used only through
`set.intersection`, so a `Finset` is the faithful model. -/
def SUPPORT_CONN_PROTOCOLS : Finset Nat := {P_IP4, P_UNIX}

/-- Message of the `ValueError` raised by `parse_conn_protocol` (the
interpolated generator object and the offending maddr are elided). -/
def connProtoErrMsg : String :=
  "connection protocol should be only one protocol out of SUPPORTED_PROTOS"

/-- `parse_conn_protocol(maddr)`: form the set of protocol codes of the
address, intersect with `SUPPORT_CONN_PROTOCOLS`, require the intersection to
have exactly one element and return it (`tuple(proto_cand)[0]`), raising
`ValueError` otherwise. Extracting the unique element of a one-element set is
embedded as `Finset.min'` of the singleton intersection. -/
def parse_conn_protocol (protoCodes : Finset Nat) : Except String Nat :=
  if h : (protoCodes ∩ SUPPORT_CONN_PROTOCOLS).card = 1 then
    .ok ((protoCodes ∩ SUPPORT_CONN_PROTOCOLS).min' (Finset.card_pos.mp (by omega)))
  else .error connProtoErrMsg

/-! ## DaemonConnector -/

/-- `DaemonConnector`: stores the control multiaddr (abstracted by its set of
protocol codes) and the transport code computed by `parse_conn_protocol` in
`__init__`. -/
structure DaemonConnector where
  control_codes : Finset Nat
  proto_code : Nat
deriving DecidableEq

/-- `DaemonConnector.__init__`: validates the control address up front via
`parse_conn_protocol`; construction fails (the `ValueError` propagates) when
the address does not carry exactly one supported transport. -/
def mkDaemonConnector (controlCodes : Finset Nat) : Except String DaemonConnector :=
  match parse_conn_protocol controlCodes with
  | .ok c => .ok { control_codes := controlCodes, proto_code := c }
  | .error e => .error e

/-- The branch of `DaemonConnector.open_connection` that is taken. -/
inductive ConnBranch
  /-- `self.proto_code == protocols.P_UNIX`: `asyncio.open_unix_connection`. -/
  | unixConn
  /-- `self.proto_code == protocols.P_IP4`: `asyncio.open_connection`. -/
  | ip4Conn
  /-- The final `else`: `raise ValueError("Protocol not supported: ...")`. -/
  | unsupportedConn
deriving DecidableEq

/-- Branch selection of `DaemonConnector.open_connection`. -/
def open_connection (d : DaemonConnector) : ConnBranch :=
  if d.proto_code = P_UNIX then .unixConn
  else if d.proto_code = P_IP4 then .ip4Conn
  else .unsupportedConn

/-! ## Wire messages (`p2pd_pb2` fragments used by the persistent channel) -/

/-- The oneof of a `CallUnaryResponse` built by `_handle_persistent_request`:
either the `result` payload or the `error` description. -/
inductive CUBody
  | resultBody (payload : List Nat)
  | errorBody (desc : String)
deriving DecidableEq

/-- `p2pd_pb.CallUnaryResponse` as built by the client: tagged with the
original call identifier and carrying exactly one of result / error. -/
structure CallUnaryResponse where
  callId : Nat
  body : CUBody
deriving DecidableEq

/-- Outbound `p2pd_pb.Request` messages placed on `pending_messages`. -/
inductive Request
  | persistentConnUpgrade
  | addUnaryHandlerReq (proto : String)
  | callUnaryReq (peer : List Nat) (proto : String) (data : List Nat) (callId : Nat)
  | sendResponseToRemote (resp : CallUnaryResponse)
deriving DecidableEq

/-- `resp.requestHandling`: a daemon-relayed inbound unary call
(`p2pd_pb.CallUnaryRequest` with fields `peer`, `proto`, `data`, `callId`). -/
structure PersistentRequest where
  peer : List Nat
  proto : String
  data : List Nat
  callId : Nat
deriving DecidableEq

/-- Which field of `resp.callUnaryResponse` is set on an inbound frame
(`HasField("result")` / `HasField("error")` / neither). -/
inductive RespBody
  | unaryResultField (payload : List Nat)
  | unaryErrorField (desc : String)
  | neitherField
deriving DecidableEq

/-- An inbound `p2pd_pb.Response` frame on the persistent channel, as
discriminated by the read loop (`HasField("callUnaryResponse")` /
`HasField("requestHandling")` / anything else). -/
inductive Response
  | callUnaryResponseMsg (callId : Nat) (body : RespBody)
  | requestHandlingMsg (req : PersistentRequest)
  | otherMsg
deriving DecidableEq

/-- State of one `asyncio.Future` in `pending_calls`: a single-assignment
slot that is pending, resolved with a payload (`set_result`) or failed with
an exception (`set_exception`). -/
inductive FutState
  | pendingFut
  | resolvedWith (payload : List Nat)
  | failedWith (exc : PyExc)
deriving DecidableEq

/-! ## ControlClient state -/

/-- The mutable state of a `ControlClient`. `conns_opened` counts calls to
`DaemonConnector.open_persistent_connection` and `loop_tasks_spawned` counts
`asyncio.create_task` calls on the two channel loops, so that "the persistent
connection is opened / the loops are spawned exactly once" is expressible.
`spawned_handler_tasks` records `asyncio.create_task(_handle_persistent_request(...))`
calls made by the read loop, and `log` records `logger.debug` output. -/
structure ClientState where
  handlers : List (String × Nat)
  unary_handlers : List (String × Nat)
  pers_conn_open : Bool
  pending_messages : List Request
  pending_calls : List (Nat × FutState)
  log : List String
  spawned_handler_tasks : List PersistentRequest
  conns_opened : Nat
  loop_tasks_spawned : Nat
deriving DecidableEq

/-- `ControlClient.__init__`: empty registries, `_pers_conn_open = False`,
empty outbound queue and empty correlation table. -/
def mkControlClient : ClientState :=
  { handlers := []
    unary_handlers := []
    pers_conn_open := false
    pending_messages := []
    pending_calls := []
    log := []
    spawned_handler_tasks := []
    conns_opened := 0
    loop_tasks_spawned := 0 }

/-! ## Persistent channel: read loop -/

/-- Processing of one decoded inbound frame by the body of
`_read_from_persistent_conn`. On `callUnaryResponse`: a known call id with a
`result` field resolves the pending future; a known id with an `error` field
fails it with `P2PHandlerError(str(error))`; otherwise the frame is logged
(`logger.debug`) and discarded. `set_result` / `set_exception` on a future
that is not pending raises `asyncio.InvalidStateError` (which would escape
the loop). On `requestHandling`, `_handle_persistent_request` is scheduled
with `asyncio.create_task`. Any other frame falls through the if/elif chain
and is ignored. -/
def read_step (s : ClientState) (resp : Response) : ClientState × Option PyExc :=
  match resp with
  | .callUnaryResponseMsg callId body =>
    match dget s.pending_calls callId, body with
    | some fs, .unaryResultField payload =>
      if fs = .pendingFut then
        ({ s with pending_calls := dset s.pending_calls callId (.resolvedWith payload) }, none)
      else (s, some .invalidStateError)
    | some fs, .unaryErrorField desc =>
      if fs = .pendingFut then
        ({ s with pending_calls := dset s.pending_calls callId (FutState.failedWith (.p2pHandlerError desc)) }, none)
      else (s, some .invalidStateError)
    | some _, .neitherField =>
      ({ s with log := s.log ++ ["received unexpected unary call"] }, none)
    | none, _ =>
      ({ s with log := s.log ++ ["received unexpected unary call"] }, none)
  | .requestHandlingMsg req =>
    ({ s with spawned_handler_tasks := s.spawned_handler_tasks ++ [req] }, none)
  | .otherMsg => (s, none)

/-- What `await read_pbmsg_safe(reader, resp)` yields on one iteration of the
read loop: a decoded frame, or an exception (e.g. a decode failure). -/
inductive ReadEvent
  | frameEvent (resp : Response)
  | decodeFailureEvent (msg : String)
deriving DecidableEq

/-- `_read_from_persistent_conn`: the `while True` read loop, run on a finite
prefix of the reader's event stream. An empty event list means the loop is
still blocked in `read_pbmsg_safe` (it never returns normally); the loop
terminates only by an exception propagating out of it — a decode failure
from `read_pbmsg_safe`, or an `InvalidStateError` from a frame-processing
step. There is no `try`/`except`/`finally` around the loop body in the
source: nothing runs after the exception escapes. -/
def read_from_persistent_conn : ClientState → List ReadEvent → ClientState × Option PyExc
  | s, [] => (s, none)
  | s, .decodeFailureEvent msg :: _ => (s, some (.decodeError msg))
  | s, .frameEvent r :: rest =>
    match read_step s r with
    | (s1, none) => read_from_persistent_conn s1 rest
    | (s1, some e) => (s1, some e)

/-! ## Persistent channel: establishment -/

/-- Body of the `with`-block of `_ensure_persistent_conn` (control.py:161-165):
re-check the flag, open the persistent connection, spawn the read and write
loop tasks, set `_pers_conn_open`. In the source this block is unreachable —
see `ensure_persistent_conn` — and it is embedded separately to document what
it would do. -/
def establish_persistent_conn (s : ClientState) : ClientState :=
  if s.pers_conn_open then s
  else { s with
    pers_conn_open := true
    conns_opened := s.conns_opened + 1
    loop_tasks_spawned := s.loop_tasks_spawned + 2 }

/-- `_ensure_persistent_conn`: if `_pers_conn_open` is already set, return at
once. Otherwise the source executes `with self._ensure_conn_lock:` where
`_ensure_conn_lock` is an `asyncio.Lock` (control.py:87). `asyncio.Lock`
does not implement the synchronous context-manager protocol — entering it
with a plain `with` statement raises (`RuntimeError` on Python 3.9 and
below, `TypeError` on 3.10 and above) instead of awaiting the lock — so the
call raises before the lock is acquired and before any of
`establish_persistent_conn` runs: no connection is opened, no loop task is
spawned, and the flag is never set. -/
def ensure_persistent_conn (s : ClientState) : ClientState × Option PyExc :=
  if s.pers_conn_open then (s, none)
  else (s, some .lockNotSyncUsable)

/-! ## Persistent channel: inbound call handling -/

/-- Outcome of `await self.unary_handlers[request.proto](request.data, remote_id)`:
the handler returns a payload, or raises an exception whose `repr` is `desc`. -/
inductive HandlerOutcome
  | returnsPayload (payload : List Nat)
  | raisesExc (desc : String)
deriving DecidableEq

/-- `_handle_persistent_request(request)`: asserts the protocol is registered;
invokes the handler inside `try`; builds a `CallUnaryResponse` tagged with the
request's original `callId` carrying the returned payload, or, if the handler
raised, carrying `repr(e)` as the error; then enqueues exactly one
`SEND_RESPONSE_TO_REMOTE` request on `pending_messages`. -/
def handle_persistent_request (s : ClientState) (request : PersistentRequest)
    (outcome : HandlerOutcome) : ClientState × Option PyExc :=
  match dget s.unary_handlers request.proto with
  | none => (s, some .assertionError)
  | some _ =>
    let response : CallUnaryResponse :=
      match outcome with
      | .returnsPayload payload => { callId := request.callId, body := .resultBody payload }
      | .raisesExc desc => { callId := request.callId, body := .errorBody desc }
    ({ s with pending_messages := s.pending_messages ++ [.sendResponseToRemote response] },
     none)

/-! ## Unary handler registration and invocation -/

/-- Message of the `ValueError` raised on a duplicate unary-handler registration. -/
def duplicateHandlerMsg (proto : String) : String :=
  "Handler for protocol " ++ proto ++ " already assigned"

/-- `add_unary_handler(proto, handler)`: ensure the persistent connection,
enqueue an `ADD_UNARY_HANDLER` request, then — only after enqueueing — check
`self.unary_handlers.get(proto)` (handlers are callables, hence truthy) and
raise `ValueError` on a duplicate, otherwise store the handler in the
registry. -/
def add_unary_handler (s : ClientState) (proto : String) (handlerId : Nat) :
    ClientState × Option PyExc :=
  match ensure_persistent_conn s with
  | (s1, some e) => (s1, some e)
  | (s1, none) =>
    let s2 := { s1 with pending_messages := s1.pending_messages ++ [.addUnaryHandlerReq proto] }
    if (dget s2.unary_handlers proto).isSome then
      (s2, some (.valueError (duplicateHandlerMsg proto)))
    else
      ({ s2 with unary_handlers := dset s2.unary_handlers proto handlerId }, none)

/-- Outcome of `await self.pending_calls[call_id]` inside `call_unary_handler`:
the read loop resolved the future with a payload, failed it with a remote
error, or the caller abandoned the call (the await was cancelled). -/
inductive AwaitOutcome
  | successPayload (payload : List Nat)
  | remoteErr (msg : String)
  | abandonedCall
deriving DecidableEq

/-- How `call_unary_handler` itself completes. -/
inductive CallExit
  | returned (payload : List Nat)
  | raised (e : PyExc)
  | cancelledExit
deriving DecidableEq

/-- `call_unary_handler(peer_id, proto, data)`: build the `CALL_UNARY`
request with a fresh `call_id`; ensure the persistent connection (an
exception there propagates before the `try`, so the correlation table is
never touched on that path); then, inside `try`, store a fresh pending
future under `call_id`, enqueue the request and await the future; the
`finally` block always pops `call_id` from `pending_calls`, regardless of
whether the await returned a payload, raised the remote error, or was
cancelled by the caller abandoning the call. -/
def call_unary_handler (s : ClientState) (peer : List Nat) (proto : String)
    (data : List Nat) (callId : Nat) (outcome : AwaitOutcome) :
    ClientState × CallExit :=
  match ensure_persistent_conn s with
  | (s1, some e) => (s1, .raised e)
  | (s1, none) =>
    let s2 := { s1 with pending_calls := dset s1.pending_calls callId .pendingFut }
    let s3 := { s2 with pending_messages := s2.pending_messages ++ [Request.callUnaryReq peer proto data callId] }
    let s4 := { s3 with pending_calls := ddel s3.pending_calls callId }
    match outcome with
    | .successPayload payload => (s4, .returned payload)
    | .remoteErr msg => (s4, .raised (.p2pHandlerError msg))
    | .abandonedCall => (s4, .cancelledExit)

/-! ## Stream acceptor and stream handler registration -/

/-- The decoded header frame of an accepted inbound stream
(`StreamInfo.from_protobuf(pb_stream_info)`). -/
structure StreamInfo where
  peer : List Nat
  addr : List Nat
  proto : String
deriving DecidableEq

/-- Outcome of `ControlClient._handler` on one accepted connection. -/
inductive AcceptorResult
  /-- `KeyError` branch: `writer.close()` then `raise DispatchFailure(e)` where
  the wrapped `KeyError` carries the unregistered protocol name. -/
  | dispatchFailure (connClosed : Bool) (missingProto : String)
  /-- `await handler(stream_info, reader, writer)`: the registered callback is
  invoked with the decoded metadata and the connection; the acceptor itself
  does not close the connection. -/
  | handlerInvoked (handlerId : Nat) (info : StreamInfo) (closedByAcceptor : Bool)
deriving DecidableEq

/-- `ControlClient._handler(reader, writer)` after decoding the header frame:
look the protocol up in `self.handlers`; on `KeyError` close the writer and
raise `DispatchFailure`; otherwise hand the connection to the handler. -/
def handler_dispatch (s : ClientState) (info : StreamInfo) : AcceptorResult :=
  match dget s.handlers info.proto with
  | none => .dispatchFailure true info.proto
  | some h => .handlerInvoked h info false

/-- The status of the daemon's one-shot response (`p2pd_pb.Response.type`). -/
inductive DaemonResp
  | okResp
  | errResp (msg : String)
deriving DecidableEq

/-- `raise_if_failed(resp)` (from `p2p_daemon_bindings.utils`): raise
`ControlFailure` when the response carries an error status, pass otherwise. -/
def raise_if_failed (resp : DaemonResp) : Option PyExc :=
  match resp with
  | .okResp => none
  | .errResp msg => some (.controlFailure msg)

/-- `stream_handler(proto, handler_cb)`: open an ephemeral connection, send a
`STREAM_HANDLER` registration request, read the daemon's response (passed
here as the oracle `resp`), close the writer, run `raise_if_failed`, and only
if that passes store the callback in `self.handlers` (dict assignment:
overwrite permitted). -/
def stream_handler (s : ClientState) (proto : String) (cb : Nat)
    (resp : DaemonResp) : ClientState × Option PyExc :=
  match raise_if_failed resp with
  | some e => (s, some e)
  | none => ({ s with handlers := dset s.handlers proto cb }, none)

/-! ## Concrete states used by the witnesses -/

/-- A client with an established persistent channel and one pending call. -/
def Wpending : ClientState :=
  { mkControlClient with pers_conn_open := true, pending_calls := [(1, FutState.pendingFut)] }

/-- A client with an established persistent channel and one registered unary handler. -/
def Wunary : ClientState :=
  { mkControlClient with pers_conn_open := true, unary_handlers := [("echo", 5)] }

/-- A client with one registered stream handler. -/
def Wstream : ClientState :=
  { mkControlClient with handlers := [("echo/1.0", 9)] }

/-! ## Helper lemmas -/

theorem dget_ddel_dset_of_fresh {α β : Type} [DecidableEq α]
    (d : List (α × β)) (k : α) (v : β) (h : dget d k = none) :
    dget (ddel (dset d k v) k) k = none := by
  induction d with
  | nil => simp [dget, dset, ddel, h]
  | cons hd tl ih =>
    obtain ⟨k1, v1⟩ := hd
    by_cases hk : k1 = k
    · simp [dget, hk] at h
    · simp [dget, hk] at h
      simp [dget, dset, ddel, hk, ih h]

theorem parse_ok_of_card_one (protoCodes : Finset Nat)
    (h : (protoCodes ∩ SUPPORT_CONN_PROTOCOLS).card = 1) :
    ∃ c, parse_conn_protocol protoCodes = .ok c := by
  unfold parse_conn_protocol
  rw [dif_pos h]
  exact ⟨_, rfl⟩

theorem parse_card_one_of_ok (protoCodes : Finset Nat) (c : Nat)
    (h : parse_conn_protocol protoCodes = .ok c) :
    (protoCodes ∩ SUPPORT_CONN_PROTOCOLS).card = 1 := by
  by_contra hne
  unfold parse_conn_protocol at h
  rw [dif_neg hne] at h
  exact absurd h (by simp)

theorem parse_ok_mem (protoCodes : Finset Nat) (c : Nat)
    (h : parse_conn_protocol protoCodes = .ok c) :
    c ∈ protoCodes ∧ c ∈ SUPPORT_CONN_PROTOCOLS := by
  have hcard := parse_card_one_of_ok protoCodes c h
  unfold parse_conn_protocol at h
  rw [dif_pos hcard] at h
  have hc := Except.ok.inj h
  have hmem := Finset.min'_mem (protoCodes ∩ SUPPORT_CONN_PROTOCOLS)
    (Finset.card_pos.mp (by omega))
  rw [hc] at hmem
  exact Finset.mem_inter.mp hmem

theorem parse_error_of_card_ne_one (protoCodes : Finset Nat)
    (h : (protoCodes ∩ SUPPORT_CONN_PROTOCOLS).card ≠ 1) :
    parse_conn_protocol protoCodes = .error connProtoErrMsg := by
  unfold parse_conn_protocol
  rw [dif_neg h]

/-! ## Claim theorems -/

/-- C7. `parse_conn_protocol` succeeds and returns a transport-kind code
exactly when exactly one supported transport kind is present in the address
(the intersection of the address's protocol codes with
`SUPPORT_CONN_PROTOCOLS` is a singleton); any returned code is one of the
supported kinds actually present; and whenever zero or at least two supported
kinds are present it raises the `ValueError` — it never picks one of several
candidates. -/
theorem parse_conn_protocol_spec (protoCodes : Finset Nat) :
    ((protoCodes ∩ SUPPORT_CONN_PROTOCOLS).card = 1 ↔
      ∃ c, parse_conn_protocol protoCodes = .ok c)
    ∧ (∀ c, parse_conn_protocol protoCodes = .ok c →
        c ∈ protoCodes ∧ c ∈ SUPPORT_CONN_PROTOCOLS)
    ∧ ((protoCodes ∩ SUPPORT_CONN_PROTOCOLS).card ≠ 1 →
        parse_conn_protocol protoCodes = .error connProtoErrMsg) :=
  ⟨⟨parse_ok_of_card_one protoCodes,
    fun ⟨c, hc⟩ => parse_card_one_of_ok protoCodes c hc⟩,
   parse_ok_mem protoCodes,
   parse_error_of_card_ne_one protoCodes⟩

/-- Witness for C7 at concrete addresses: `/ip4/.../tcp/...` (codes `{4, 6}`)
resolves, and an address carrying both `ip4` and `unix` (codes `{4, 400}`) is
rejected rather than disambiguated. -/
theorem parse_conn_protocol_spec_witness :
    (∃ c, parse_conn_protocol {4, 6} = .ok c)
    ∧ (4 ∈ ({4, 6} : Finset Nat) ∧ 4 ∈ SUPPORT_CONN_PROTOCOLS)
    ∧ parse_conn_protocol {4, 400} = .error connProtoErrMsg :=
  ⟨(parse_conn_protocol_spec {4, 6}).1.mp (by decide),
   (parse_conn_protocol_spec {4, 6}).2.1 4 (by decide),
   (parse_conn_protocol_spec {4, 400}).2.2 (by decide)⟩

/-- C9. Every successfully constructed `DaemonConnector` stores a transport
code that is either the unix or the ip4 code, and on such a connector
`open_connection` never reaches its "Protocol not supported" branch. -/
theorem daemon_connector_proto_code_supported (controlCodes : Finset Nat)
    (d : DaemonConnector) (h : mkDaemonConnector controlCodes = .ok d) :
    (d.proto_code = P_UNIX ∨ d.proto_code = P_IP4)
    ∧ open_connection d ≠ ConnBranch.unsupportedConn := by
  unfold mkDaemonConnector at h
  cases hp : parse_conn_protocol controlCodes with
  | error e => rw [hp] at h; exact absurd h (by simp)
  | ok c =>
    rw [hp] at h
    simp only [Except.ok.injEq] at h
    have hmem := (parse_ok_mem controlCodes c hp).2
    have hc : c = P_IP4 ∨ c = P_UNIX := by
      simpa [SUPPORT_CONN_PROTOCOLS] using hmem
    subst h
    rcases hc with hc | hc <;> subst hc <;>
      simp [open_connection, P_IP4, P_UNIX]

/-- Witness for C9 at the default control address `/unix/tmp/p2pd.sock`
(protocol codes `{400}`). -/
theorem daemon_connector_proto_code_supported_witness :
    (({ control_codes := {400}, proto_code := 400 } : DaemonConnector).proto_code = P_UNIX
      ∨ ({ control_codes := {400}, proto_code := 400 } : DaemonConnector).proto_code = P_IP4)
    ∧ open_connection { control_codes := {400}, proto_code := 400 } ≠ ConnBranch.unsupportedConn :=
  daemon_connector_proto_code_supported {400} { control_codes := {400}, proto_code := 400 }
    (by decide)

/-- C1. The claim fails on the code: when the read loop terminates — here by
a decode failure escaping `read_pbmsg_safe` — there is no handler around the
loop body, the exception simply propagates, and the client state, in
particular the `pending_calls` correlation table, is exactly as it was. No
outstanding `PendingCall` is failed with anything: a `ChannelClosed` error
and the broadcast-failure cleanup the design requires do not exist in the
source, so every caller awaiting a pending future at that moment waits
forever. -/
theorem read_loop_decode_failure_preserves_pending_calls (s : ClientState)
    (msg : String) (rest : List ReadEvent) :
    read_from_persistent_conn s (.decodeFailureEvent msg :: rest) =
      (s, some (.decodeError msg)) := rfl

/-- C2. The claim fails on the code: on a freshly constructed client the very
first call to `_ensure_persistent_conn` raises out of the synchronous
`with self._ensure_conn_lock:` statement (an `asyncio.Lock` cannot be entered
with a plain `with`), so no persistent connection is opened, neither loop
task is spawned, `_pers_conn_open` stays `False`, and a repeated call fails
the same way — the initialization happens zero times, not exactly once, and
no caller ever blocks on the lock. -/
theorem ensure_persistent_conn_sync_with_raises :
    ensure_persistent_conn mkControlClient = (mkControlClient, some PyExc.lockNotSyncUsable)
    ∧ mkControlClient.pers_conn_open = false
    ∧ (ensure_persistent_conn mkControlClient).1.conns_opened = 0
    ∧ (ensure_persistent_conn mkControlClient).1.loop_tasks_spawned = 0
    ∧ (ensure_persistent_conn mkControlClient).1.pers_conn_open = false
    ∧ ensure_persistent_conn (ensure_persistent_conn mkControlClient).1 =
        ((ensure_persistent_conn mkControlClient).1, some PyExc.lockNotSyncUsable) := by
  decide

/-- C6. Read-loop dispatch of unary-call result frames: a frame whose call id
is pending in the correlation table and which carries a `result` field
resolves that future with the payload; one carrying an `error` field fails it
with `P2PHandlerError(str(error))`; and a frame whose call id is unknown only
appends the debug log line, after which the loop proceeds to the next frame
without crashing. -/
theorem read_step_dispatch_spec (s : ClientState) (callId : Nat) (rest : List ReadEvent) :
    (∀ payload, dget s.pending_calls callId = some FutState.pendingFut →
      read_step s (.callUnaryResponseMsg callId (.unaryResultField payload)) =
        ({ s with pending_calls := dset s.pending_calls callId (FutState.resolvedWith payload) }, none))
    ∧ (∀ desc, dget s.pending_calls callId = some FutState.pendingFut →
      read_step s (.callUnaryResponseMsg callId (.unaryErrorField desc)) =
        ({ s with pending_calls := dset s.pending_calls callId (FutState.failedWith (.p2pHandlerError desc)) }, none))
    ∧ (∀ body, dget s.pending_calls callId = none →
      read_from_persistent_conn s (.frameEvent (.callUnaryResponseMsg callId body) :: rest) =
        read_from_persistent_conn { s with log := s.log ++ ["received unexpected unary call"] } rest) := by
  refine ⟨?_, ?_, ?_⟩
  · intro payload h
    simp [read_step, h]
  · intro desc h
    simp [read_step, h]
  · intro body h
    cases body <;> simp [read_from_persistent_conn, read_step, h]

/-- Witness for C6: a pending call with id 1 is resolved by a success frame
and failed by an error frame, and a frame for the unknown id 2 only logs. -/
theorem read_step_dispatch_spec_witness :
    read_step Wpending (.callUnaryResponseMsg 1 (.unaryResultField [7])) =
      ({ Wpending with pending_calls := dset Wpending.pending_calls 1 (FutState.resolvedWith [7]) }, none)
    ∧ read_step Wpending (.callUnaryResponseMsg 1 (.unaryErrorField "boom")) =
      ({ Wpending with pending_calls := dset Wpending.pending_calls 1 (FutState.failedWith (.p2pHandlerError "boom")) }, none)
    ∧ read_from_persistent_conn Wpending
        (.frameEvent (.callUnaryResponseMsg 2 (.unaryResultField [7])) :: []) =
      read_from_persistent_conn
        { Wpending with log := Wpending.log ++ ["received unexpected unary call"] } [] :=
  ⟨(read_step_dispatch_spec Wpending 1 []).1 [7] (by decide),
   (read_step_dispatch_spec Wpending 1 []).2.1 "boom" (by decide),
   (read_step_dispatch_spec Wpending 2 []).2.2 (.unaryResultField [7]) (by decide)⟩

/-- C3. For every inbound call request whose protocol has a registered unary
handler, `_handle_persistent_request` enqueues exactly one response frame
tagged with the request's original call id — the outbound queue grows by
exactly that one frame and nothing is raised: a success frame carrying the
handler's returned payload when the handler returns normally, or an error
frame carrying the exception description when it raises, never both and
never zero. -/
theorem handle_persistent_request_exactly_one_response (s : ClientState)
    (request : PersistentRequest) (h : (dget s.unary_handlers request.proto).isSome) :
    (∀ payload,
      handle_persistent_request s request (.returnsPayload payload) =
        ({ s with pending_messages := s.pending_messages ++
            [Request.sendResponseToRemote { callId := request.callId, body := CUBody.resultBody payload }] },
         none))
    ∧ (∀ desc,
      handle_persistent_request s request (.raisesExc desc) =
        ({ s with pending_messages := s.pending_messages ++
            [Request.sendResponseToRemote { callId := request.callId, body := CUBody.errorBody desc }] },
         none)) := by
  obtain ⟨hId, hh⟩ := Option.isSome_iff_exists.mp h
  constructor <;> intro x <;> simp [handle_persistent_request, hh]

/-- Witness for C3: an inbound call for the registered protocol "echo"
produces exactly the one success frame tagged with its call id 7. -/
theorem handle_persistent_request_exactly_one_response_witness :
    handle_persistent_request Wunary ⟨[1], "echo", [2], 7⟩ (.returnsPayload [3]) =
      ({ Wunary with pending_messages := Wunary.pending_messages ++
          [Request.sendResponseToRemote { callId := 7, body := CUBody.resultBody [3] }] },
       none)
    ∧ handle_persistent_request Wunary ⟨[1], "echo", [2], 7⟩ (.raisesExc "RuntimeError") =
      ({ Wunary with pending_messages := Wunary.pending_messages ++
          [Request.sendResponseToRemote { callId := 7, body := CUBody.errorBody "RuntimeError" }] },
       none) :=
  ⟨(handle_persistent_request_exactly_one_response Wunary ⟨[1], "echo", [2], 7⟩ (by decide)).1 [3],
   (handle_persistent_request_exactly_one_response Wunary ⟨[1], "echo", [2], 7⟩ (by decide)).2 "RuntimeError"⟩

/-- C4. Registering a unary handler for a protocol that already has one
raises the duplicate-handler `ValueError`, and the failed second registration
leaves the unary-handler registry — in particular the first handler's entry —
unchanged. (Stated on a client whose persistent channel is established, so
that `_ensure_persistent_conn` returns; see C2 for the state before then.) -/
theorem add_unary_handler_duplicate_rejected (s : ClientState) (proto : String)
    (h0 hNew : Nat) (hOpen : s.pers_conn_open = true)
    (hDup : dget s.unary_handlers proto = some h0) :
    (add_unary_handler s proto hNew).2 = some (.valueError (duplicateHandlerMsg proto))
    ∧ (add_unary_handler s proto hNew).1.unary_handlers = s.unary_handlers
    ∧ dget (add_unary_handler s proto hNew).1.unary_handlers proto = some h0 := by
  simp [add_unary_handler, ensure_persistent_conn, hOpen, hDup]

/-- Witness for C4: re-registering "echo" on a client that already maps
"echo" to handler 5 fails and leaves the entry mapping to 5. -/
theorem add_unary_handler_duplicate_rejected_witness :
    (add_unary_handler Wunary "echo" 6).2 = some (.valueError (duplicateHandlerMsg "echo"))
    ∧ (add_unary_handler Wunary "echo" 6).1.unary_handlers = Wunary.unary_handlers
    ∧ dget (add_unary_handler Wunary "echo" 6).1.unary_handlers "echo" = some 5 :=
  add_unary_handler_duplicate_rejected Wunary "echo" 5 6 (by decide) (by decide)

/-- C5. For every completion of `call_unary_handler` — the awaited future
returning the success payload, raising the remote error, or being cancelled
because the caller abandoned the call — the (fresh) call id used for the
call is absent from the pending-call correlation table afterwards: the
`finally` block always pops it. The path on which `_ensure_persistent_conn`
raises before the `try` is covered as well (there the id is never inserted). -/
theorem call_unary_handler_removes_call_id (s : ClientState) (peer : List Nat)
    (proto : String) (data : List Nat) (callId : Nat) (outcome : AwaitOutcome)
    (hFresh : dget s.pending_calls callId = none) :
    dget (call_unary_handler s peer proto data callId outcome).1.pending_calls callId = none := by
  have hdel := dget_ddel_dset_of_fresh s.pending_calls callId FutState.pendingFut hFresh
  by_cases hOpen : s.pers_conn_open <;>
    cases outcome <;>
      simp [call_unary_handler, ensure_persistent_conn, hOpen, hFresh, hdel]

/-- Witness for C5: an abandoned call with the fresh id 42 leaves no entry
under 42 in the correlation table. -/
theorem call_unary_handler_removes_call_id_witness :
    dget (call_unary_handler Wunary [1] "echo" [2] 42 AwaitOutcome.abandonedCall).1.pending_calls 42 =
      none :=
  call_unary_handler_removes_call_id Wunary [1] "echo" [2] 42 .abandonedCall (by decide)

/-- C8. The stream acceptor `_handler`: an inbound stream whose protocol has
no registered handler is closed and reported as a `DispatchFailure`
identifying that protocol; one with a registered handler is handed, together
with the decoded stream metadata, to that handler, and the acceptor does not
close the connection itself. -/
theorem handler_dispatch_spec (s : ClientState) (info : StreamInfo) :
    (dget s.handlers info.proto = none →
      handler_dispatch s info = .dispatchFailure true info.proto)
    ∧ (∀ h, dget s.handlers info.proto = some h →
      handler_dispatch s info = .handlerInvoked h info false) := by
  constructor
  · intro h
    simp [handler_dispatch, h]
  · intro hid h
    simp [handler_dispatch, h]

/-- Witness for C8: an inbound stream for "echo/1.0" with no registered
handler is rejected with a `DispatchFailure` naming "echo/1.0"; with handler
9 registered it is handed to that handler unclosed. -/
theorem handler_dispatch_spec_witness :
    handler_dispatch mkControlClient ⟨[1], [2], "echo/1.0"⟩ =
      .dispatchFailure true "echo/1.0"
    ∧ handler_dispatch Wstream ⟨[1], [2], "echo/1.0"⟩ =
      .handlerInvoked 9 ⟨[1], [2], "echo/1.0"⟩ false :=
  ⟨(handler_dispatch_spec mkControlClient ⟨[1], [2], "echo/1.0"⟩).1 (by decide),
   (handler_dispatch_spec Wstream ⟨[1], [2], "echo/1.0"⟩).2 9 (by decide)⟩

/-- C10. `stream_handler` consults `raise_if_failed` before touching the
registry: a failure status from the daemon makes it raise `ControlFailure`
with the whole client state — in particular the stream-handler registry —
unchanged, while a success status (and only that) stores the callback. -/
theorem stream_handler_registry_after_status_check (s : ClientState)
    (proto : String) (cb : Nat) :
    (∀ msg, stream_handler s proto cb (.errResp msg) = (s, some (.controlFailure msg)))
    ∧ stream_handler s proto cb .okResp =
        ({ s with handlers := dset s.handlers proto cb }, none)
    ∧ (∀ msg, (stream_handler s proto cb (.errResp msg)).1.handlers = s.handlers) :=
  ⟨fun _ => rfl, rfl, fun _ => rfl⟩

end P2PDaemon
